import Mathlib

/- Verification development for the PineBar analytics repository.

set_option maxRecDepth 10000

   The repository generates a synthetic transactional table per reporting
   period (two variants of `generate_data`: `data_processing.py` and
   `app/app.py`) and aggregates it into metrics, category and product views
   (`app/app.py`, `visualizations.py`, `app/utils/data_processing.py`).

   Machine floats of the source are modelled by exact rationals, numpy's
   global pseudo-random generator by an explicitly threaded deterministic
   linear-congruential state.  Python's `int()` truncation is modelled by
   `pyInt`.  All definitions are executable. -/

/-- Model of numpy's global random state: a deterministic 31-bit
linear congruential generator, explicitly threaded. -/
structure Rng where
  state : Nat
deriving DecidableEq

/-- One step of the pseudo-random source. -/
def rngNext (r : Rng) : Nat × Rng :=
  let s := (r.state * 1103515245 + 12345) % 2147483648
  (s, ⟨s⟩)

/-- Model of `np.random.seed(n)`. -/
def npSeed (n : Nat) : Rng :=
  ⟨n⟩

/-- Model of `np.random.random()`: a rational in `[0, 1)`. -/
def npRandom (r : Rng) : ℚ × Rng :=
  let p := rngNext r
  ((p.1 : ℚ) / 2147483648, p.2)

/-- Model of `np.random.randint(lo, hi)`: an integer in `[lo, hi)`.
numpy raises on an empty range; the model returns `lo` there. -/
def npRandint (lo hi : ℤ) (r : Rng) : ℤ × Rng :=
  let p := rngNext r
  (if lo < hi then lo + (p.1 : ℤ) % (hi - lo) else lo, p.2)

/-- Python's `int()` applied to a float: truncation toward zero. -/
def pyInt (q : ℚ) : ℤ :=
  if q < 0 then -⌊-q⌋ else ⌊q⌋

/-- A transaction record: one row of the generated table.  Monetary fields
are rationals (floats in the source), quantity and count fields integers. -/
structure Record where
  sku : String
  category : String
  totalAmount : ℚ
  totalQuantity : ℤ
  totalTransactionCount : ℤ
  zeroPricedCount : ℤ
  discountedAmount : ℚ
  discountedQuantity : ℤ
  discountedTransactionCount : ℤ
  offeredAmount : ℚ
  offeredQuantity : ℤ
  offeredTransactionCount : ℤ
  lossAmount : ℚ
  lossQuantity : ℤ
  lossTransactionCount : ℤ
  returnedAmount : ℚ
  returnedQuantity : ℤ
  returnedTransactionCount : ℤ
  transactionAmount : ℚ
  transactionQuantity : ℤ
  transactionCount : ℤ
  cost : ℚ
  profit : ℚ
  profitMargin : ℚ
  year : String
deriving DecidableEq

/-- The raw adjustment draws of one generated item (both variants draw them
with identical code: `data_processing.py` lines 73-88, `app.py` lines 228-243). -/
structure Adj where
  zeroPriced : ℤ
  discAmount : ℤ
  discQuantity : ℤ
  discTransactions : ℤ
  offeredAmount : ℤ
  offeredQuantity : ℤ
  offeredTransactions : ℤ
  lossAmount : ℤ
  lossQuantity : ℤ
  lossTransactions : ℤ
  returnedAmount : ℤ
  returnedQuantity : ℤ
  returnedTransactions : ℤ
deriving DecidableEq

/-- The discounted bucket (`data_processing.py` lines 74-76, `app.py` lines
229-231): a `0.7`-probability gate drawing a negated amount, then quantity and
transaction draws conditioned on it. -/
def drawDiscounted (totalAmount : ℚ) (totalQuantity : ℤ) (r : Rng) : (ℤ × ℤ × ℤ) × Rng :=
  let pg := npRandom r
  let pA :=
    if (3 : ℚ)/10 < pg.1 then
      let p := npRandint 0 (pyInt (totalAmount * (15/100)) + 1) pg.2
      (-p.1, p.2)
    else ((0 : ℤ), pg.2)
  let pQ :=
    if pA.1 < 0 then npRandint 0 (pyInt ((totalQuantity : ℚ) * (15/100)) + 1) pA.2
    else ((0 : ℤ), pA.2)
  let pT :=
    if 0 < pQ.1 then npRandint 0 (min 50 (pQ.1 + 1)) pQ.2
    else ((0 : ℤ), pQ.2)
  ((pA.1, pQ.1, pT.1), pT.2)

/-- The offered bucket (`data_processing.py` lines 78-80, `app.py` lines
233-235): a `0.3`-probability gate.  The amount is drawn without a minus sign
in the source, unlike the discounted, loss and returned amounts. -/
def drawOffered (totalAmount : ℚ) (totalQuantity : ℤ) (r : Rng) : (ℤ × ℤ × ℤ) × Rng :=
  let pg := npRandom r
  let pA :=
    if (7 : ℚ)/10 < pg.1 then npRandint 0 (pyInt (totalAmount * (1/10)) + 1) pg.2
    else ((0 : ℤ), pg.2)
  let pQ :=
    if 0 < pA.1 then npRandint 0 (pyInt ((totalQuantity : ℚ) * (5/100)) + 1) pA.2
    else ((0 : ℤ), pA.2)
  let pT :=
    if 0 < pQ.1 then npRandint 0 (min 20 (pQ.1 + 1)) pQ.2
    else ((0 : ℤ), pQ.2)
  ((pA.1, pQ.1, pT.1), pT.2)

/-- The loss bucket (`data_processing.py` lines 82-84, `app.py` lines
237-239): a `0.2`-probability gate drawing a negated amount. -/
def drawLoss (totalAmount : ℚ) (totalQuantity : ℤ) (r : Rng) : (ℤ × ℤ × ℤ) × Rng :=
  let pg := npRandom r
  let pA :=
    if (8 : ℚ)/10 < pg.1 then
      let p := npRandint 0 (pyInt (totalAmount * (1/10)) + 1) pg.2
      (-p.1, p.2)
    else ((0 : ℤ), pg.2)
  let pQ :=
    if pA.1 < 0 then npRandint 0 (pyInt ((totalQuantity : ℚ) * (5/100)) + 1) pA.2
    else ((0 : ℤ), pA.2)
  let pT :=
    if 0 < pQ.1 then npRandint 0 (min 10 (pQ.1 + 1)) pQ.2
    else ((0 : ℤ), pQ.2)
  ((pA.1, pQ.1, pT.1), pT.2)

/-- The returned bucket (`data_processing.py` lines 86-88, `app.py` lines
241-243): a `0.15`-probability gate drawing a negated amount. -/
def drawReturned (totalAmount : ℚ) (totalQuantity : ℤ) (r : Rng) : (ℤ × ℤ × ℤ) × Rng :=
  let pg := npRandom r
  let pA :=
    if (85 : ℚ)/100 < pg.1 then
      let p := npRandint 0 (pyInt (totalAmount * (5/100)) + 1) pg.2
      (-p.1, p.2)
    else ((0 : ℤ), pg.2)
  let pQ :=
    if pA.1 < 0 then npRandint 0 (pyInt ((totalQuantity : ℚ) * (3/100)) + 1) pA.2
    else ((0 : ℤ), pA.2)
  let pT :=
    if 0 < pQ.1 then npRandint 0 (min 5 (pQ.1 + 1)) pQ.2
    else ((0 : ℤ), pQ.2)
  ((pA.1, pQ.1, pT.1), pT.2)

/-- The adjustment block shared verbatim by both `generate_data` variants
(`data_processing.py` lines 73-88, `app.py` lines 228-243): the zero-priced
draw followed by the four gated buckets, in source order. -/
def drawAdjustments (totalAmount : ℚ) (totalQuantity : ℤ) (r : Rng) : Adj × Rng :=
  let pZero := npRandint 0 (pyInt ((totalQuantity : ℚ) * (5/100)) + 1) r
  let pDisc := drawDiscounted totalAmount totalQuantity pZero.2
  let pOff := drawOffered totalAmount totalQuantity pDisc.2
  let pLoss := drawLoss totalAmount totalQuantity pOff.2
  let pRet := drawReturned totalAmount totalQuantity pLoss.2
  ({ zeroPriced := pZero.1
     discAmount := pDisc.1.1
     discQuantity := pDisc.1.2.1
     discTransactions := pDisc.1.2.2
     offeredAmount := pOff.1.1
     offeredQuantity := pOff.1.2.1
     offeredTransactions := pOff.1.2.2
     lossAmount := pLoss.1.1
     lossQuantity := pLoss.1.2.1
     lossTransactions := pLoss.1.2.2
     returnedAmount := pRet.1.1
     returnedQuantity := pRet.1.2.1
     returnedTransactions := pRet.1.2.2 }, pRet.2)

/-- Final assembly of a record from the drawn values: the transaction
amount/quantity, cost, profit and margin computations shared verbatim by
both variants (`data_processing.py` lines 91-136, `app.py` lines 246-296). -/
def mkRecord (item category year : String) (totalAmount : ℚ)
    (totalQuantity transactionCount : ℤ) (adj : Adj) (costFactor : ℚ) : Record :=
  let transactionAmount : ℚ :=
    totalAmount + adj.discAmount + adj.offeredAmount + adj.lossAmount + adj.returnedAmount
  let tqRaw : ℤ :=
    totalQuantity - adj.zeroPriced - adj.discQuantity - adj.offeredQuantity -
      adj.lossQuantity - adj.returnedQuantity
  let transactionQuantity : ℤ := if tqRaw < 0 then 0 else tqRaw
  let cost : ℚ := totalAmount * costFactor
  let profit : ℚ := transactionAmount - cost
  let profitMargin : ℚ :=
    if 0 < transactionAmount then profit / transactionAmount * 100 else 0
  { sku := item
    category := category
    totalAmount := totalAmount
    totalQuantity := totalQuantity
    totalTransactionCount := transactionCount
    zeroPricedCount := adj.zeroPriced
    discountedAmount := adj.discAmount
    discountedQuantity := adj.discQuantity
    discountedTransactionCount := adj.discTransactions
    offeredAmount := adj.offeredAmount
    offeredQuantity := adj.offeredQuantity
    offeredTransactionCount := adj.offeredTransactions
    lossAmount := adj.lossAmount
    lossQuantity := adj.lossQuantity
    lossTransactionCount := adj.lossTransactions
    returnedAmount := adj.returnedAmount
    returnedQuantity := adj.returnedQuantity
    returnedTransactionCount := adj.returnedTransactions
    transactionAmount := transactionAmount
    transactionQuantity := transactionQuantity
    transactionCount := transactionCount
    cost := cost
    profit := profit
    profitMargin := profitMargin
    year := year }

/-- The fixed catalog of categories and items, identical in both variants
(`data_processing.py` lines 15-43, `app.py` lines 111-139). -/
def genCatalog : List (String × List String) :=
  [("BEER", ["Hemlock", "CURRENT CAN", "GANSETT", "N/A BEER", "Return Beer", "SIX POINT",
      "Vermonter Cider"]),
   ("COCKTAILS", ["BEAD & FEATHER", "BLACK MANHATTAN", "CARPETBAGGER", "COCKTAIL OF THE DAY",
      "COCKTAIL SHAKEN", "COCKTAIL STIRRED", "Daiquiri", "Gershwin", "Gimlet",
      "Gin & Sin", "HAITIAN DIVORCE", "HOT DRINX", "Manhattan", "Margarita",
      "Martini Gin", "Martini Vodka", "Negroni", "Old Fashioned", "Open Cocktail",
      "Paper Plane", "Penicillin", "Pineapple Daiq", "pineapple daiquiri",
      "POP-UP COCKTAIL", "Rainy Day Dark And Stormy", "SAZERAC COCKTAIL",
      "SHOOTER", "Soda", "SPRITZ", "TITOS MARTINI", "TONE POLICE"]),
   ("FOOD", ["BABA GHANO0USH", "BEEF TARTARE", "BITTER SALAD", "BOQUERONES", "BROWNIE",
      "Burger", "CARROTS", "CAVIAR DOG", "CHARRED BEETS", "CHICKEM KEBAB",
      "CHX SANDWICH", "CROQUETTES", "Doggie", "DUCK RILLETTES", "EXTRA FOCACCIA",
      "Extra Patty", "FALAFEL", "FOCACCIA", "FRENCH FRIES", "Fries", "HANDER STEAK",
      "HUMMUS", "LAMB KABAB", "LEEK TOAST", "MEZE PLATTER", "MEZE PLATTY", "PLATTY",
      "MOUSSE", "MOZZ STICKS", "MUHAMMARA", "NYE TACOS", "OLIVES AND PICKELS",
      "Open Food", "Order note", "Pimento Cheese", "Salad", "SAUSAGE", "SEA TROUT",
      "Smash - Vegan Patty", "STEAK FRITES", "SUNCHOKES", "TOSTADA", "TZATZIKI", "VCC"]),
   ("SPIRITS", ["AMARGO VALLET", "Amaro", "Balvenie", "Bourbon", "BW WHEAT", "CAMPARI",
      "CASCUIN TAHONA", "CURRENT CASSIS", "CYNAR", "EL DORADO 12", "ESPOLON",
      "Fernet", "Gin", "Hendricks", "Juice", "Macallan 18", "Makers", "Mezcal",
      "Michters", "MONTENEGRO", "NONINO", "OLD FORESTER 100", "Open Spirit",
      "Rare Breed", "RITTENHOUSE", "Rum", "SAZERAC", "Scotch", "SHOT 4$",
      "SHOT 5$", "SHOT 6$", "SHOT 7$", "SHOT 8$", "SHOT 9$", "Spirit",
      "SUZE", "Talisker", "Tequila", "TEREMANA REPOSADO", "Tesoro", "Titos",
      "Toki", "TULLY", "Vodka", "Wathen's", "ZACAPA"]),
   ("WINE", ["BTL Fizzy", "GLS Fizzy", "GLS Red", "GLS Rose", "GLS White", "OPEN WINE"]),
   ("N/A", ["Ginger Beer", "Mock Turtleneck", "POP-UP MOCKTAIL"]),
   ("Merch", ["Candle 2 oz", "Candle 9oz", "Misc", "GIFT CERTIFICATE"])]

/-- The period-specific seed for `np.random.seed` (both variants; any string
other than the two named full-year options falls to the 2025 branch). -/
def seedOf (option : String) : Nat :=
  if option = "2023 Full Year" then 2023
  else if option = "2024 Full Year" then 2024
  else 2025

/-- The period tag written into each record's `Year` field (both variants). -/
def yearOf (option : String) : String :=
  if option = "2023 Full Year" then "2023"
  else if option = "2024 Full Year" then "2024"
  else "2025"

namespace DataProcessing

/-- The per-iteration `cost_factor` dict of `data_processing.py` lines 96-104:
all seven entries are built (consuming seven `np.random.random()` draws, in
dict insertion order) and the current category's entry is selected. -/
def drawCostFactor (category : String) (r : Rng) : ℚ × Rng :=
  let pB := npRandom r
  let pC := npRandom pB.2
  let pF := npRandom pC.2
  let pS := npRandom pF.2
  let pW := npRandom pS.2
  let pN := npRandom pW.2
  let pM := npRandom pN.2
  (if category = "BEER" then 35/100 + pB.1 * (1/10)
   else if category = "COCKTAILS" then 25/100 + pC.1 * (1/10)
   else if category = "FOOD" then 40/100 + pF.1 * (15/100)
   else if category = "SPIRITS" then 30/100 + pS.1 * (1/10)
   else if category = "WINE" then 45/100 + pW.1 * (1/10)
   else if category = "N/A" then 15/100 + pN.1 * (1/10)
   else if category = "Merch" then 50/100 + pM.1 * (2/10)
   else 0, pM.2)

/-- The loop body for one catalog item in `data_processing.py` lines 66-136:
a `0.7`-probability inclusion gate, the gross draws, the adjustment block,
the cost-factor dict and the record assembly. -/
def genItem (category item year : String) (r : Rng) : Option Record × Rng :=
  let pInc := npRandom r
  if (3 : ℚ)/10 < pInc.1 then
    let pTA := npRandint 500 25000 pInc.2
    let pTQ := npRandint 10 (pyInt ((pTA.1 : ℚ) / 10) + 1) pTA.2
    let pTC := npRandint 5 (min 500 (pTQ.1 + 1)) pTQ.2
    let pAdj := drawAdjustments (pTA.1 : ℚ) pTQ.1 pTC.2
    let pCF := drawCostFactor category pAdj.2
    (some (mkRecord item category year (pTA.1 : ℚ) pTQ.1 pTC.1 pAdj.1 pCF.1), pCF.2)
  else
    (none, pInc.2)

/-- The inner loop of `data_processing.py` over the items of one category. -/
def genItems (category year : String) : List String → Rng → List Record × Rng
  | [], r => ([], r)
  | item :: rest, r =>
    let p := genItem category item year r
    let t := genItems category year rest p.2
    (match p.1 with
     | some rec => rec :: t.1
     | none => t.1, t.2)

/-- The outer loop of `data_processing.py` over the category catalog. -/
def genCats (year : String) : List (String × List String) → Rng → List Record × Rng
  | [], r => ([], r)
  | (category, items) :: rest, r =>
    let p := genItems category year items r
    let t := genCats year rest p.2
    (p.1 ++ t.1, t.2)

/-- `generate_data` of `data_processing.py`: reseeds the global random state
from the period option (discarding the incoming state `s`) and synthesizes
the table.  `n_samples` of the source is never used and is omitted. -/
def generate_data (option : String) (s : Rng) : List Record × Rng :=
  genCats (yearOf option) genCatalog (npSeed (seedOf option))

end DataProcessing

namespace App

/-- `target_total_sales` of `app.py` (lines 151, 161, 171): $297,051.00 for
2023, projected 10% growth for 2024, 30% of annual for the partial 2025. -/
def targetTotalSales (option : String) : ℚ :=
  if option = "2023 Full Year" then 297051
  else if option = "2024 Full Year" then 297051 * (11/10)
  else 297051 * (3/10)

/-- The `category_weights` dict of `app.py` lines 178-186.  Every category of
the catalog is a key; other strings (which would raise a `KeyError` in the
source) are mapped to 0. -/
def categoryWeight (category : String) : ℚ :=
  if category = "SPIRITS" then 359/1000
  else if category = "FOOD" then 317/1000
  else if category = "COCKTAILS" then 191/1000
  else if category = "BEER" then 69/1000
  else if category = "WINE" then 35/1000
  else if category = "N/A" then 2/100
  else if category = "Merch" then 9/1000
  else 0

/-- The item weight of `app.py` lines 202-210. -/
def itemWeight (category item : String) : ℚ :=
  if category = "FOOD" ∧ item ∈ ["NYE TACOS", "SUNCHOKES", "CHARRED BEETS"] then 20/100
  else if category = "COCKTAILS" ∧ item ∈ ["Open Cocktail", "SHOOTER", "COCKTAIL OF THE DAY"]
    then 18/100
  else if category = "SPIRITS" ∧ item ∈ ["SAZERAC", "MONTENEGRO", "Bourbon", "ESPOLON"]
    then 15/100
  else 5/100

/-- The `cost_factor` if-chain of `app.py` lines 251-264: only the matching
branch draws a random number.  The unreachable fall-through (a category
outside the catalog leaves `cost_factor` unset in the source) is mapped to 0. -/
def drawCostFactor (category : String) (r : Rng) : ℚ × Rng :=
  if category = "BEER" then let p := npRandom r; (35/100 + p.1 * (1/10), p.2)
  else if category = "COCKTAILS" then let p := npRandom r; (25/100 + p.1 * (1/10), p.2)
  else if category = "FOOD" then let p := npRandom r; (40/100 + p.1 * (15/100), p.2)
  else if category = "SPIRITS" then let p := npRandom r; (30/100 + p.1 * (1/10), p.2)
  else if category = "WINE" then let p := npRandom r; (45/100 + p.1 * (1/10), p.2)
  else if category = "N/A" then let p := npRandom r; (15/100 + p.1 * (1/10), p.2)
  else if category = "Merch" then let p := npRandom r; (50/100 + p.1 * (2/10), p.2)
  else (0, r)

/-- The first pass of `app.py` lines 193-196: each item is kept with
probability 0.7. -/
def selectValid : List String → Rng → List String × Rng
  | [], r => ([], r)
  | item :: rest, r =>
    let p := npRandom r
    let t := selectValid rest p.2
    (if (3 : ℚ)/10 < p.1 then item :: t.1 else t.1, t.2)

/-- The loop body of `app.py` lines 200-296 for one valid item.
`total_item_weight` sums the comprehension `[item_weight for _ in valid_items]`
(the same weight once per valid item), so it is modelled as the sum of
`nValid` copies of the item's own weight, exactly as the source computes it. -/
def genItem (category item year : String) (categoryTarget : ℚ) (nValid : ℕ)
    (r : Rng) : Record × Rng :=
  let w := itemWeight category item
  let totalItemWeight := (List.replicate nValid w).sum
  let normalizedWeight := w / totalItemWeight
  let baseAmount := categoryTarget * normalizedWeight
  let pMult := npRandom r
  let totalAmount := baseAmount * (9/10 + (2/10) * pMult.1)
  let pTQ := npRandint 10 (pyInt (totalAmount / 20) + 1) pMult.2
  let pTC := npRandint 5 (min 200 (pTQ.1 + 1)) pTQ.2
  let pAdj := drawAdjustments totalAmount pTQ.1 pTC.2
  let pCF := drawCostFactor category pAdj.2
  (mkRecord item category year totalAmount pTQ.1 pTC.1 pAdj.1 pCF.1, pCF.2)

/-- The loop of `app.py` over the valid items of one category. -/
def genItems (category year : String) (categoryTarget : ℚ) (nValid : ℕ) :
    List String → Rng → List Record × Rng
  | [], r => ([], r)
  | item :: rest, r =>
    let p := genItem category item year categoryTarget nValid r
    let t := genItems category year categoryTarget nValid rest p.2
    (p.1 :: t.1, t.2)

/-- One category iteration of `app.py` lines 188-296: the category target,
the valid-item selection and the per-item generation. -/
def genCat (year : String) (target : ℚ) (category : String) (items : List String)
    (r : Rng) : List Record × Rng :=
  let categoryTarget := target * categoryWeight category
  let v := selectValid items r
  genItems category year categoryTarget v.1.length v.1 v.2

/-- The outer loop of `app.py` over the category catalog. -/
def genCats (year : String) (target : ℚ) : List (String × List String) → Rng →
    List Record × Rng
  | [], r => ([], r)
  | (category, items) :: rest, r =>
    let p := genCat year target category items r
    let t := genCats year target rest p.2
    (p.1 ++ t.1, t.2)

/-- The table of `app.py` as it stands right before the scaling step
(line 298). -/
def preScaled (option : String) : List Record × Rng :=
  genCats (yearOf option) (targetTotalSales option) genCatalog (npSeed (seedOf option))

/-- `df['Transaction Amount'].sum()`. -/
def currentTotal (recs : List Record) : ℚ :=
  (recs.map (fun rec => rec.transactionAmount)).sum

/-- The per-record part of `app.py` lines 305-310: every monetary column is
multiplied by the scaling factor. -/
def scaleRecord (f : ℚ) (rec : Record) : Record :=
  { rec with
    totalAmount := rec.totalAmount * f
    discountedAmount := rec.discountedAmount * f
    offeredAmount := rec.offeredAmount * f
    lossAmount := rec.lossAmount * f
    returnedAmount := rec.returnedAmount * f
    transactionAmount := rec.transactionAmount * f
    cost := rec.cost * f
    profit := rec.profit * f }

/-- The unguarded margin recomputation of `app.py` line 313. -/
def recomputeMargin (rec : Record) : Record :=
  { rec with profitMargin := rec.profit / rec.transactionAmount * 100 }

/-- The scaling step of `app.py` lines 300-313. -/
def applyScaling (target : ℚ) (recs : List Record) : List Record :=
  let scalingFactor := target / currentTotal recs
  recs.map (fun rec => recomputeMargin (scaleRecord scalingFactor rec))

/-- `generate_data` of `app.py`: reseeds the global random state from the
period option (discarding the incoming state `s`), synthesizes the table and
rescales it to the period's target total sales.  The unused `n_samples`,
`target_revenue`, `target_net_sales`, `target_dine_in_sales` and
`total_generated_amount` of the source are omitted. -/
def generate_data (option : String) (s : Rng) : List Record × Rng :=
  let p := preScaled option
  (applyScaling (targetTotalSales option) p.1, p.2)

end App

/-- `.round(1)` of pandas, modelled over ℚ: round to one decimal place. -/
def round1 (q : ℚ) : ℚ :=
  (round (q * 10) : ℚ) / 10

namespace App

/-- The five KPI values of the metrics row. -/
structure MetricsRow where
  totalRevenue : ℚ
  totalProfit : ℚ
  totalOrders : ℚ
  profitMargin : ℚ
  avgOrder : ℚ
deriving DecidableEq

/-- `create_metrics_row` of `app.py` lines 318-356 (and, identically,
`visualizations.py` lines 7-46): the five displayed KPI values.  Both
divisions are guarded by a positive-denominator check, else 0. -/
def create_metrics_row (df : List Record) : MetricsRow :=
  let revenue := (df.map (fun rec => rec.transactionAmount)).sum
  let profit := (df.map (fun rec => rec.profit)).sum
  let orders := (df.map (fun rec => (rec.transactionCount : ℚ))).sum
  { totalRevenue := revenue
    totalProfit := profit
    totalOrders := orders
    profitMargin := if 0 < revenue then profit / revenue * 100 else 0
    avgOrder := if 0 < orders then revenue / orders else 0 }

/-- The sidebar category filter of `app.py` lines 933-935: rows are
restricted to the selected categories unless `"All"` is selected. -/
def applyCategoryFilter (categoryFilter : List String) (df : List Record) : List Record :=
  if "All" ∉ categoryFilter then
    df.filter (fun rec => decide (rec.category ∈ categoryFilter))
  else df

/-- The `Transaction Amount` group sum of `create_category_performance`
(`app.py` line 437-444) for one category. -/
def categoryAmount (df : List Record) (category : String) : ℚ :=
  ((df.filter (fun rec => decide (rec.category = category))).map
    (fun rec => rec.transactionAmount)).sum

/-- The `Revenue Share` column of `create_category_performance` (`app.py`
line 451, `visualizations.py` line 141): a category's share of the filtered
table's total transaction amount, in percent, rounded to one decimal. -/
def revenueShare (df : List Record) (category : String) : ℚ :=
  round1 (categoryAmount df category / (df.map (fun rec => rec.transactionAmount)).sum * 100)

/-- The `df_sorted` selection of `create_product_performance` (`app.py`
lines 530-569, `visualizations.py` lines 220-259): the table sorted by the
selected metric and direction, truncated to 10 rows.  `pandas.sort_values`
is modelled by a stable insertion sort. -/
def create_product_performance (metricSort : String) (df : List Record) : List Record :=
  if metricSort = "Most Sales" then
    (List.insertionSort (fun a b => b.transactionAmount ≤ a.transactionAmount) df).take 10
  else if metricSort = "Least Sales" then
    (List.insertionSort (fun a b => a.transactionAmount ≤ b.transactionAmount) df).take 10
  else if metricSort = "Most Profit" then
    (List.insertionSort (fun a b => b.profit ≤ a.profit) df).take 10
  else if metricSort = "Least Profit" then
    (List.insertionSort (fun a b => a.profit ≤ b.profit) df).take 10
  else if metricSort = "Highest Margin" then
    (List.insertionSort (fun a b => b.profitMargin ≤ a.profitMargin) df).take 10
  else if metricSort = "Lowest Margin" then
    (List.insertionSort (fun a b => a.profitMargin ≤ b.profitMargin) df).take 10
  else if metricSort = "Most Orders" then
    (List.insertionSort (fun a b => b.transactionCount ≤ a.transactionCount) df).take 10
  else
    (List.insertionSort (fun a b => a.transactionCount ≤ b.transactionCount) df).take 10

end App

namespace Utils

/-- `filter_data` of `app/utils/data_processing.py` lines 33-53.  The date
range arguments are accepted and ignored, exactly as in the source (date
filtering is an unimplemented comment there).  The category restriction is
applied only when `categories` is given, non-empty and without `"All"`. -/
def filter_data (df : List Record) (categories : Option (List String))
    (startDate endDate : Option String) : List Record :=
  match categories with
  | some cs =>
    if 0 < cs.length ∧ "All" ∉ cs then
      df.filter (fun rec => decide (rec.category ∈ cs))
    else df
  | none => df

end Utils

/-- The quantity difference of `data_processing.py` line 92 / `app.py`
line 247: total quantity minus the five adjustment quantities. -/
def tqDiff (rec : Record) : ℤ :=
  rec.totalQuantity - rec.zeroPricedCount - rec.discountedQuantity - rec.offeredQuantity -
    rec.lossQuantity - rec.returnedQuantity

/-- The per-record facts shared by both `generate_data` variants that are
preserved by the scaling step: the transaction-amount identity, the signs of
the four adjustment amounts and the non-negativity law of the transaction
quantity. -/
def RecordClaims (rec : Record) : Prop :=
  rec.transactionAmount =
      rec.totalAmount + rec.discountedAmount + rec.offeredAmount + rec.lossAmount +
        rec.returnedAmount ∧
    rec.discountedAmount ≤ 0 ∧ 0 ≤ rec.offeredAmount ∧ rec.lossAmount ≤ 0 ∧
      rec.returnedAmount ≤ 0 ∧
    0 ≤ rec.transactionQuantity ∧ (0 ≤ tqDiff rec → rec.transactionQuantity = tqDiff rec)

/-- The per-record facts holding for freshly assembled (pre-scaling) records:
additionally, the transaction amount is non-negative and the stored profit
margin agrees with its defining formula whenever the amount is positive. -/
def StrongInv (rec : Record) : Prop :=
  RecordClaims rec ∧ 0 ≤ rec.transactionAmount ∧
    (0 < rec.transactionAmount →
      rec.profitMargin = rec.profit / rec.transactionAmount * 100)

def dfltRecord : Record :=
  { sku := "", category := "", totalAmount := 0, totalQuantity := 0, totalTransactionCount := 0,
    zeroPricedCount := 0, discountedAmount := 0, discountedQuantity := 0,
    discountedTransactionCount := 0, offeredAmount := 0, offeredQuantity := 0,
    offeredTransactionCount := 0, lossAmount := 0, lossQuantity := 0, lossTransactionCount := 0,
    returnedAmount := 0, returnedQuantity := 0, returnedTransactionCount := 0,
    transactionAmount := 0, transactionQuantity := 0, transactionCount := 0,
    cost := 0, profit := 0, profitMargin := 0, year := "" }

def cexRow (n : ℕ) : Record :=
  { dfltRecord with
    transactionAmount := n, profit := n, profitMargin := n, transactionCount := n }

def cex11 : List Record :=
  (List.range 11).map cexRow

def cex20 : List Record :=
  (List.range 20).map cexRow

def tiedRow (n : ℕ) : Record :=
  { dfltRecord with totalQuantity := n }

def cexTied20 : List Record :=
  (List.range 20).map tiedRow

theorem npRandom_nonneg (r : Rng) : 0 ≤ (npRandom r).1 := by
  unfold npRandom
  positivity

theorem npRandom_lt_one (r : Rng) : (npRandom r).1 < 1 := by
  unfold npRandom rngNext
  rw [div_lt_one (by norm_num)]
  have h : (r.state * 1103515245 + 12345) % 2147483648 < 2147483648 :=
    Nat.mod_lt _ (by norm_num)
  exact_mod_cast h

theorem le_npRandint (lo hi : ℤ) (r : Rng) : lo ≤ (npRandint lo hi r).1 := by
  unfold npRandint
  dsimp only
  split
  · rename_i h
    have : (0 : ℤ) ≤ ((rngNext r).1 : ℤ) % (hi - lo) :=
      Int.emod_nonneg _ (by omega)
    omega
  · exact le_refl lo

theorem npRandint_lt (lo hi : ℤ) (r : Rng) (h : lo < hi) : (npRandint lo hi r).1 < hi := by
  unfold npRandint
  dsimp only
  rw [if_pos h]
  have : ((rngNext r).1 : ℤ) % (hi - lo) < hi - lo :=
    Int.emod_lt_of_pos _ (by omega)
  omega

theorem pyInt_nonneg (q : ℚ) (h : 0 ≤ q) : 0 ≤ pyInt q := by
  unfold pyInt
  rw [if_neg (not_lt.mpr h)]
  exact Int.floor_nonneg.mpr h

theorem pyInt_le (q : ℚ) (h : 0 ≤ q) : (pyInt q : ℚ) ≤ q := by
  unfold pyInt
  rw [if_neg (not_lt.mpr h)]
  exact Int.floor_le q

theorem npRandint_zero_le_bound (bound : ℚ) (hb : 0 ≤ bound) (R : Rng) :
    ((npRandint 0 (pyInt bound + 1) R).1 : ℚ) ≤ bound := by
  have hp := pyInt_nonneg bound hb
  have h2 := npRandint_lt 0 (pyInt bound + 1) R (by omega)
  have h3 := pyInt_le bound hb
  have h4 : (npRandint 0 (pyInt bound + 1) R).1 ≤ pyInt bound := by omega
  calc ((npRandint 0 (pyInt bound + 1) R).1 : ℚ) ≤ (pyInt bound : ℚ) := by exact_mod_cast h4
    _ ≤ bound := h3

theorem drawDiscounted_amount (t : ℚ) (q : ℤ) (r : Rng) (ht : 0 ≤ t) :
    (drawDiscounted t q r).1.1 ≤ 0 ∧ -(t * (15/100)) ≤ ((drawDiscounted t q r).1.1 : ℚ) := by
  have hb : (0:ℚ) ≤ t * (15/100) := by positivity
  unfold drawDiscounted
  dsimp only
  split
  · constructor
    · exact neg_nonpos.mpr (le_npRandint _ _ _)
    · rw [Int.cast_neg]
      exact neg_le_neg (npRandint_zero_le_bound _ hb _)
  · constructor
    · exact le_refl 0
    · rw [Int.cast_zero]
      exact neg_nonpos.mpr hb

theorem drawOffered_amount (t : ℚ) (q : ℤ) (r : Rng) :
    0 ≤ (drawOffered t q r).1.1 := by
  unfold drawOffered
  dsimp only
  split
  · exact le_npRandint _ _ _
  · exact le_refl 0

theorem drawLoss_amount (t : ℚ) (q : ℤ) (r : Rng) (ht : 0 ≤ t) :
    (drawLoss t q r).1.1 ≤ 0 ∧ -(t * (1/10)) ≤ ((drawLoss t q r).1.1 : ℚ) := by
  have hb : (0:ℚ) ≤ t * (1/10) := by positivity
  unfold drawLoss
  dsimp only
  split
  · constructor
    · exact neg_nonpos.mpr (le_npRandint _ _ _)
    · rw [Int.cast_neg]
      exact neg_le_neg (npRandint_zero_le_bound _ hb _)
  · constructor
    · exact le_refl 0
    · rw [Int.cast_zero]
      exact neg_nonpos.mpr hb

theorem drawReturned_amount (t : ℚ) (q : ℤ) (r : Rng) (ht : 0 ≤ t) :
    (drawReturned t q r).1.1 ≤ 0 ∧ -(t * (5/100)) ≤ ((drawReturned t q r).1.1 : ℚ) := by
  have hb : (0:ℚ) ≤ t * (5/100) := by positivity
  unfold drawReturned
  dsimp only
  split
  · constructor
    · exact neg_nonpos.mpr (le_npRandint _ _ _)
    · rw [Int.cast_neg]
      exact neg_le_neg (npRandint_zero_le_bound _ hb _)
  · constructor
    · exact le_refl 0
    · rw [Int.cast_zero]
      exact neg_nonpos.mpr hb

theorem drawAdjustments_amounts (t : ℚ) (q : ℤ) (r : Rng) (ht : 0 ≤ t) :
    (drawAdjustments t q r).1.discAmount ≤ 0 ∧
      -(t * (15/100)) ≤ ((drawAdjustments t q r).1.discAmount : ℚ) ∧
      0 ≤ (drawAdjustments t q r).1.offeredAmount ∧
      (drawAdjustments t q r).1.lossAmount ≤ 0 ∧
      -(t * (1/10)) ≤ ((drawAdjustments t q r).1.lossAmount : ℚ) ∧
      (drawAdjustments t q r).1.returnedAmount ≤ 0 ∧
      -(t * (5/100)) ≤ ((drawAdjustments t q r).1.returnedAmount : ℚ) := by
  unfold drawAdjustments
  dsimp only
  exact ⟨(drawDiscounted_amount t q _ ht).1, (drawDiscounted_amount t q _ ht).2,
    drawOffered_amount t q _,
    (drawLoss_amount t q _ ht).1, (drawLoss_amount t q _ ht).2,
    (drawReturned_amount t q _ ht).1, (drawReturned_amount t q _ ht).2⟩

theorem mkRecord_strongInv (item category year : String) (totalAmount : ℚ)
    (totalQuantity transactionCount : ℤ) (adj : Adj) (costFactor : ℚ)
    (ht : 0 ≤ totalAmount)
    (hd : adj.discAmount ≤ 0) (hd2 : -(totalAmount * (15/100)) ≤ (adj.discAmount : ℚ))
    (ho : 0 ≤ adj.offeredAmount)
    (hl : adj.lossAmount ≤ 0) (hl2 : -(totalAmount * (1/10)) ≤ (adj.lossAmount : ℚ))
    (hr : adj.returnedAmount ≤ 0) (hr2 : -(totalAmount * (5/100)) ≤ (adj.returnedAmount : ℚ)) :
    StrongInv (mkRecord item category year totalAmount totalQuantity transactionCount
      adj costFactor) := by
  unfold StrongInv RecordClaims tqDiff mkRecord
  dsimp only
  refine ⟨⟨rfl, ?_, ?_, ?_, ?_, ?_, ?_⟩, ?_, ?_⟩
  · exact_mod_cast hd
  · exact_mod_cast ho
  · exact_mod_cast hl
  · exact_mod_cast hr
  · split
    · exact le_refl 0
    · omega
  · intro hdiff
    split
    · omega
    · rfl
  · have hoq : (0:ℚ) ≤ (adj.offeredAmount : ℚ) := by exact_mod_cast ho
    linarith
  · intro hpos
    rw [if_pos hpos]
theorem npRandint500_cast_nonneg (R : Rng) : (0:ℚ) ≤ ((npRandint 500 25000 R).1 : ℚ) := by
  exact_mod_cast le_trans (by norm_num : (0:ℤ) ≤ 500) (le_npRandint 500 25000 R)

theorem dpGenItem_strongInv (category item year : String) (r : Rng) (rec : Record)
    (h : (DataProcessing.genItem category item year r).1 = some rec) : StrongInv rec := by
  unfold DataProcessing.genItem at h
  dsimp only at h
  split at h
  · dsimp only at h
    have hrec := Option.some.inj h
    subst hrec
    apply mkRecord_strongInv
    · exact npRandint500_cast_nonneg _
    · exact (drawAdjustments_amounts _ _ _ (npRandint500_cast_nonneg _)).1
    · exact (drawAdjustments_amounts _ _ _ (npRandint500_cast_nonneg _)).2.1
    · exact (drawAdjustments_amounts _ _ _ (npRandint500_cast_nonneg _)).2.2.1
    · exact (drawAdjustments_amounts _ _ _ (npRandint500_cast_nonneg _)).2.2.2.1
    · exact (drawAdjustments_amounts _ _ _ (npRandint500_cast_nonneg _)).2.2.2.2.1
    · exact (drawAdjustments_amounts _ _ _ (npRandint500_cast_nonneg _)).2.2.2.2.2.1
    · exact (drawAdjustments_amounts _ _ _ (npRandint500_cast_nonneg _)).2.2.2.2.2.2
  · exact absurd h (by simp)

theorem dpGenItems_strongInv (category year : String) :
    ∀ (items : List String) (r : Rng) (rec : Record),
      rec ∈ (DataProcessing.genItems category year items r).1 → StrongInv rec := by
  intro items
  induction items with
  | nil =>
    intro r rec h
    simp [DataProcessing.genItems] at h
  | cons item rest ih =>
    intro r rec h
    rw [DataProcessing.genItems] at h
    dsimp only at h
    cases hopt : (DataProcessing.genItem category item year r).1 with
    | some rec2 =>
      rw [hopt] at h
      dsimp only at h
      rcases List.mem_cons.mp h with heq | hmem
      · subst heq
        exact dpGenItem_strongInv category item year r rec hopt
      · exact ih _ rec hmem
    | none =>
      rw [hopt] at h
      exact ih _ rec h

theorem dpGenCats_strongInv (year : String) :
    ∀ (cats : List (String × List String)) (r : Rng) (rec : Record),
      rec ∈ (DataProcessing.genCats year cats r).1 → StrongInv rec := by
  intro cats
  induction cats with
  | nil =>
    intro r rec h
    simp [DataProcessing.genCats] at h
  | cons p rest ih =>
    intro r rec h
    rw [DataProcessing.genCats] at h
    dsimp only at h
    rcases List.mem_append.mp h with hmem | hmem
    · exact dpGenItems_strongInv p.1 year p.2 r rec hmem
    · exact ih _ rec hmem

theorem DataProcessing.generate_data_strongInv (option : String) (s : Rng) (rec : Record)
    (h : rec ∈ (DataProcessing.generate_data option s).1) : StrongInv rec :=
  dpGenCats_strongInv (yearOf option) genCatalog (npSeed (seedOf option)) rec h

theorem App.targetTotalSales_pos (option : String) : 0 < App.targetTotalSales option := by
  unfold App.targetTotalSales
  split
  · norm_num
  · split
    · norm_num
    · norm_num

theorem App.categoryWeight_nonneg (category : String) : 0 ≤ App.categoryWeight category := by
  unfold App.categoryWeight
  repeat' split
  all_goals norm_num

theorem App.itemWeight_nonneg (category item : String) : 0 ≤ App.itemWeight category item := by
  unfold App.itemWeight
  repeat' split
  all_goals norm_num

theorem appGenItem_strongInv (category item year : String) (categoryTarget : ℚ)
    (nValid : ℕ) (r : Rng) (hT : 0 ≤ categoryTarget) :
    StrongInv (App.genItem category item year categoryTarget nValid r).1 := by
  have hw := App.itemWeight_nonneg category item
  have h1 : (0:ℚ) ≤ (List.replicate nValid (App.itemWeight category item)).sum := by
    rw [List.sum_replicate]
    exact nsmul_nonneg hw nValid
  have h2 := npRandom_nonneg r
  have ht : (0:ℚ) ≤ categoryTarget *
      (App.itemWeight category item / (List.replicate nValid (App.itemWeight category item)).sum) *
      (9/10 + (2/10) * (npRandom r).1) := by
    refine mul_nonneg (mul_nonneg hT (div_nonneg hw h1)) (by linarith)
  unfold App.genItem
  dsimp only
  apply mkRecord_strongInv
  · exact ht
  · exact (drawAdjustments_amounts _ _ _ ht).1
  · exact (drawAdjustments_amounts _ _ _ ht).2.1
  · exact (drawAdjustments_amounts _ _ _ ht).2.2.1
  · exact (drawAdjustments_amounts _ _ _ ht).2.2.2.1
  · exact (drawAdjustments_amounts _ _ _ ht).2.2.2.2.1
  · exact (drawAdjustments_amounts _ _ _ ht).2.2.2.2.2.1
  · exact (drawAdjustments_amounts _ _ _ ht).2.2.2.2.2.2

theorem appGenItems_strongInv (category year : String) (categoryTarget : ℚ) (nValid : ℕ)
    (hT : 0 ≤ categoryTarget) :
    ∀ (items : List String) (r : Rng) (rec : Record),
      rec ∈ (App.genItems category year categoryTarget nValid items r).1 → StrongInv rec := by
  intro items
  induction items with
  | nil =>
    intro r rec h
    simp [App.genItems] at h
  | cons item rest ih =>
    intro r rec h
    rw [App.genItems] at h
    dsimp only at h
    rcases List.mem_cons.mp h with heq | hmem
    · subst heq
      exact appGenItem_strongInv category item year categoryTarget nValid r hT
    · exact ih _ rec hmem

theorem appGenCat_strongInv (year : String) (target : ℚ) (category : String)
    (items : List String) (r : Rng) (rec : Record) (htarget : 0 ≤ target)
    (h : rec ∈ (App.genCat year target category items r).1) : StrongInv rec := by
  unfold App.genCat at h
  dsimp only at h
  exact appGenItems_strongInv category year _ _
    (mul_nonneg htarget (App.categoryWeight_nonneg category)) _ _ rec h

theorem appGenCats_strongInv (year : String) (target : ℚ) (htarget : 0 ≤ target) :
    ∀ (cats : List (String × List String)) (r : Rng) (rec : Record),
      rec ∈ (App.genCats year target cats r).1 → StrongInv rec := by
  intro cats
  induction cats with
  | nil =>
    intro r rec h
    simp [App.genCats] at h
  | cons p rest ih =>
    intro r rec h
    rw [App.genCats] at h
    dsimp only at h
    rcases List.mem_append.mp h with hmem | hmem
    · exact appGenCat_strongInv year target p.1 p.2 r rec htarget hmem
    · exact ih _ rec hmem

theorem App.preScaled_strongInv (option : String) (rec : Record)
    (h : rec ∈ (App.preScaled option).1) : StrongInv rec :=
  appGenCats_strongInv (yearOf option) (App.targetTotalSales option)
    (App.targetTotalSales_pos option).le genCatalog (npSeed (seedOf option)) rec h

theorem App.currentTotal_nonneg (l : List Record)
    (h : ∀ rec ∈ l, 0 ≤ rec.transactionAmount) : 0 ≤ App.currentTotal l := by
  unfold App.currentTotal
  apply List.sum_nonneg
  intro x hx
  rcases List.mem_map.mp hx with ⟨rec, hm, rfl⟩
  exact h rec hm

theorem App.currentTotal_pos (l : List Record) (rec : Record) (hm : rec ∈ l)
    (hpos : 0 < rec.transactionAmount)
    (h : ∀ y ∈ l, 0 ≤ y.transactionAmount) : 0 < App.currentTotal l := by
  rcases List.append_of_mem hm with ⟨l1, l2, rfl⟩
  unfold App.currentTotal
  rw [List.map_append, List.sum_append, List.map_cons, List.sum_cons]
  have h1 : (0:ℚ) ≤ (l1.map (fun y => y.transactionAmount)).sum := by
    apply List.sum_nonneg
    intro x hx
    rcases List.mem_map.mp hx with ⟨y, hy, rfl⟩
    exact h y (List.mem_append.mpr (Or.inl hy))
  have h2 : (0:ℚ) ≤ (l2.map (fun y => y.transactionAmount)).sum := by
    apply List.sum_nonneg
    intro x hx
    rcases List.mem_map.mp hx with ⟨y, hy, rfl⟩
    exact h y (by simp [hy])
  linarith

theorem App.currentTotal_map_scale (l : List Record) (f : ℚ) :
    App.currentTotal (l.map fun rec => App.recomputeMargin (App.scaleRecord f rec)) =
      App.currentTotal l * f := by
  unfold App.currentTotal
  induction l with
  | nil => simp
  | cons rec rest ih =>
    rw [List.map_cons, List.map_cons, List.sum_cons, List.map_cons, List.sum_cons, ih]
    show rec.transactionAmount * f + _ = _
    ring

theorem App.scaleStep_claims (f : ℚ) (hf : 0 ≤ f) (rec : Record) (h : RecordClaims rec) :
    RecordClaims (App.recomputeMargin (App.scaleRecord f rec)) := by
  obtain ⟨hsum, hd, ho, hl, hr, hq1, hq2⟩ := h
  unfold RecordClaims App.recomputeMargin App.scaleRecord tqDiff
  dsimp only
  refine ⟨?_, ?_, ?_, ?_, ?_, hq1, ?_⟩
  · rw [hsum]
    ring
  · exact mul_nonpos_iff.mpr (Or.inr ⟨hd, hf⟩)
  · exact mul_nonneg ho hf
  · exact mul_nonpos_iff.mpr (Or.inr ⟨hl, hf⟩)
  · exact mul_nonpos_iff.mpr (Or.inr ⟨hr, hf⟩)
  · exact hq2

theorem App.generate_data_claims (option : String) (s : Rng) (rec : Record)
    (h : rec ∈ (App.generate_data option s).1) : RecordClaims rec := by
  unfold App.generate_data App.applyScaling at h
  dsimp only at h
  rcases List.mem_map.mp h with ⟨rec0, hm, rfl⟩
  have hf : 0 ≤ App.targetTotalSales option / App.currentTotal (App.preScaled option).1 := by
    apply div_nonneg (App.targetTotalSales_pos option).le
    exact App.currentTotal_nonneg _ (fun y hy => (App.preScaled_strongInv option y hy).2.1)
  exact App.scaleStep_claims _ hf rec0 (App.preScaled_strongInv option rec0 hm).1

theorem countP_false_lt_length {α : Type} (p : α → Bool) :
    ∀ (l : List α) (x : α), x ∈ l → p x = false → l.countP p < l.length := by
  intro l
  induction l with
  | nil => intro x h; simp at h
  | cons a t ih =>
    intro x hx hpx
    rw [List.countP_cons, List.length_cons]
    rcases List.mem_cons.mp hx with rfl | hmem
    · rw [hpx]
      have := List.countP_le_length (p := p) (l := t)
      simp only [Bool.false_eq_true, if_false]
      omega
    · have h1 := ih x hmem hpx
      have h2 : (if p a then 1 else 0) ≤ 1 := by split <;> omega
      omega

theorem countP_trichotomy {α β : Type} [LinearOrder β] (f : α → β) (x : α) :
    ∀ l : List α,
      l.countP (fun y => decide (f x < f y)) + l.countP (fun y => decide (f y < f x)) +
        l.countP (fun y => decide (f y = f x)) = l.length := by
  intro l
  induction l with
  | nil => simp
  | cons a t ih =>
    rw [List.countP_cons, List.countP_cons, List.countP_cons, List.length_cons]
    rcases lt_trichotomy (f x) (f a) with h | h | h
    · have e1 : decide (f x < f a) = true := decide_eq_true h
      have e2 : decide (f a < f x) = false := decide_eq_false (lt_asymm h)
      have e3 : decide (f a = f x) = false := decide_eq_false (ne_of_gt h)
      rw [e1, e2, e3]
      simp only [Bool.false_eq_true, if_false, if_true]
      omega
    · have e1 : decide (f x < f a) = false := decide_eq_false (by rw [h]; exact lt_irrefl _)
      have e2 : decide (f a < f x) = false := decide_eq_false (by rw [h]; exact lt_irrefl _)
      have e3 : decide (f a = f x) = true := decide_eq_true h.symm
      rw [e1, e2, e3]
      simp only [Bool.false_eq_true, if_false, if_true]
      omega
    · have e1 : decide (f x < f a) = false := decide_eq_false (lt_asymm h)
      have e2 : decide (f a < f x) = true := decide_eq_true h
      have e3 : decide (f a = f x) = false := decide_eq_false (ne_of_lt h)
      rw [e1, e2, e3]
      simp only [Bool.false_eq_true, if_false, if_true]
      omega

theorem countP_eq_one_of_pairwise {α β : Type} [LinearOrder β] (f : α → β) :
    ∀ (l : List α), l.Pairwise (fun a b => f a ≠ f b) → ∀ x ∈ l,
      l.countP (fun y => decide (f y = f x)) = 1 := by
  intro l
  induction l with
  | nil => intro _ x hx; simp at hx
  | cons a t ih =>
    intro hpw x hx
    rw [List.countP_cons]
    rcases List.mem_cons.mp hx with rfl | hmem
    · have hz : t.countP (fun y => decide (f y = f x)) = 0 := by
        rw [List.countP_eq_zero]
        intro b hb
        simp only [decide_eq_true_eq]
        exact fun he => (List.pairwise_cons.mp hpw).1 b hb he.symm
      have e3 : decide (f x = f x) = true := decide_eq_true rfl
      rw [hz, e3]
      simp
    · have ha : decide (f a = f x) = false :=
        decide_eq_false ((List.pairwise_cons.mp hpw).1 x hmem)
      rw [ha, ih (List.pairwise_cons.mp hpw).2 x hmem]
      simp

theorem countP_gt_of_take_sortDesc {α β : Type} [LinearOrder β] (f : α → β) (l : List α) (n : ℕ) (x : α)
    (hx : x ∈ (List.insertionSort (fun a b => f b ≤ f a) l).take n) :
    l.countP (fun y => decide (f x < f y)) < n := by
  haveI : IsTotal α (fun a b => f b ≤ f a) := ⟨fun a b => le_total (f b) (f a)⟩
  haveI : IsTrans α (fun a b => f b ≤ f a) := ⟨fun a b c h1 h2 => le_trans h2 h1⟩
  have hsort : (List.insertionSort (fun a b => f b ≤ f a) l).Pairwise (fun a b => f b ≤ f a) :=
    List.sorted_insertionSort _ l
  have hperm := List.perm_insertionSort (fun a b => f b ≤ f a) l
  rw [← hperm.countP_eq]
  set d := List.insertionSort (fun a b => f b ≤ f a) l with hd
  have hsplit := List.take_append_drop n d
  have hpw2 : (d.take n ++ d.drop n).Pairwise (fun a b => f b ≤ f a) := by
    rw [hsplit]; exact hsort
  have hcross := (List.pairwise_append.mp hpw2).2.2
  have hdrop : (d.drop n).countP (fun y => decide (f x < f y)) = 0 := by
    rw [List.countP_eq_zero]
    intro v hv
    simp only [decide_eq_true_eq, not_lt]
    exact hcross x hx v hv
  have htake : (d.take n).countP (fun y => decide (f x < f y)) < n := by
    have h1 : (d.take n).countP (fun y => decide (f x < f y)) < (d.take n).length :=
      countP_false_lt_length _ _ x hx (by simp)
    have h2 : (d.take n).length ≤ n := List.length_take_le n d
    omega
  calc d.countP (fun y => decide (f x < f y))
      = (d.take n ++ d.drop n).countP (fun y => decide (f x < f y)) := by rw [hsplit]
    _ = (d.take n).countP (fun y => decide (f x < f y)) +
        (d.drop n).countP (fun y => decide (f x < f y)) := List.countP_append _ _ _
    _ < n := by omega

theorem countP_lt_of_take_sortAsc {α β : Type} [LinearOrder β] (f : α → β) (l : List α) (n : ℕ) (x : α)
    (hx : x ∈ (List.insertionSort (fun a b => f a ≤ f b) l).take n) :
    l.countP (fun y => decide (f y < f x)) < n := by
  haveI : IsTotal α (fun a b => f a ≤ f b) := ⟨fun a b => le_total (f a) (f b)⟩
  haveI : IsTrans α (fun a b => f a ≤ f b) := ⟨fun a b c h1 h2 => le_trans h1 h2⟩
  have hsort : (List.insertionSort (fun a b => f a ≤ f b) l).Pairwise (fun a b => f a ≤ f b) :=
    List.sorted_insertionSort _ l
  have hperm := List.perm_insertionSort (fun a b => f a ≤ f b) l
  rw [← hperm.countP_eq]
  set d := List.insertionSort (fun a b => f a ≤ f b) l with hd
  have hsplit := List.take_append_drop n d
  have hpw2 : (d.take n ++ d.drop n).Pairwise (fun a b => f a ≤ f b) := by
    rw [hsplit]; exact hsort
  have hcross := (List.pairwise_append.mp hpw2).2.2
  have hdrop : (d.drop n).countP (fun y => decide (f y < f x)) = 0 := by
    rw [List.countP_eq_zero]
    intro v hv
    simp only [decide_eq_true_eq, not_lt]
    exact hcross x hx v hv
  have htake : (d.take n).countP (fun y => decide (f y < f x)) < n := by
    have h1 : (d.take n).countP (fun y => decide (f y < f x)) < (d.take n).length :=
      countP_false_lt_length _ _ x hx (by simp)
    have h2 : (d.take n).length ≤ n := List.length_take_le n d
    omega
  calc d.countP (fun y => decide (f y < f x))
      = (d.take n ++ d.drop n).countP (fun y => decide (f y < f x)) := by rw [hsplit]
    _ = (d.take n).countP (fun y => decide (f y < f x)) +
        (d.drop n).countP (fun y => decide (f y < f x)) := List.countP_append _ _ _
    _ < n := by omega

theorem topBot_disjoint {α β : Type} [LinearOrder β] (f : α → β) (l : List α)
    (hpw : l.Pairwise fun a b => f a ≠ f b) (hlen : 20 ≤ l.length) :
    ∀ x ∈ (List.insertionSort (fun a b => f b ≤ f a) l).take 10,
      x ∉ (List.insertionSort (fun a b => f a ≤ f b) l).take 10 := by
  intro x hxtop hxbot
  have h1 := countP_gt_of_take_sortDesc f l 10 x hxtop
  have h2 := countP_lt_of_take_sortAsc f l 10 x hxbot
  have hxl : x ∈ l :=
    (List.perm_insertionSort (fun a b => f b ≤ f a) l).subset (List.mem_of_mem_take hxtop)
  have h3 := countP_eq_one_of_pairwise f l hpw x hxl
  have h4 := countP_trichotomy f x l
  omega

theorem dpNe : (DataProcessing.generate_data "2023 Full Year" ⟨0⟩).1 ≠ [] := by
  with_unfolding_all decide

theorem dpNe24 : (DataProcessing.generate_data "2024 Full Year" ⟨0⟩).1 ≠ [] := by
  with_unfolding_all decide

theorem preNe : (App.preScaled "2023 Full Year").1 ≠ [] := by
  with_unfolding_all decide

theorem appNe : (App.generate_data "2023 Full Year" ⟨0⟩).1 ≠ [] := by
  with_unfolding_all decide

/-- C5: for every record produced by either `generate_data` variant,
Transaction Amount equals Total Amount + Discounted Amount + Offered Amount +
Loss Amount + Returned Amount. -/
theorem claim_C5 (option : String) (s : Rng) :
    (∀ rec ∈ (DataProcessing.generate_data option s).1,
      rec.transactionAmount = rec.totalAmount + rec.discountedAmount + rec.offeredAmount +
        rec.lossAmount + rec.returnedAmount) ∧
    (∀ rec ∈ (App.generate_data option s).1,
      rec.transactionAmount = rec.totalAmount + rec.discountedAmount + rec.offeredAmount +
        rec.lossAmount + rec.returnedAmount) :=
  ⟨fun rec h => (DataProcessing.generate_data_strongInv option s rec h).1.1,
   fun rec h => (App.generate_data_claims option s rec h).1⟩

/-- C5 witness: the identity holds at the first generated record of the
"2023 Full Year" table of each variant. -/
theorem claim_C5_witness :
    (((DataProcessing.generate_data "2023 Full Year" ⟨0⟩).1.head dpNe).transactionAmount =
      ((DataProcessing.generate_data "2023 Full Year" ⟨0⟩).1.head dpNe).totalAmount +
      ((DataProcessing.generate_data "2023 Full Year" ⟨0⟩).1.head dpNe).discountedAmount +
      ((DataProcessing.generate_data "2023 Full Year" ⟨0⟩).1.head dpNe).offeredAmount +
      ((DataProcessing.generate_data "2023 Full Year" ⟨0⟩).1.head dpNe).lossAmount +
      ((DataProcessing.generate_data "2023 Full Year" ⟨0⟩).1.head dpNe).returnedAmount) ∧
    (((App.generate_data "2023 Full Year" ⟨0⟩).1.head appNe).transactionAmount =
      ((App.generate_data "2023 Full Year" ⟨0⟩).1.head appNe).totalAmount +
      ((App.generate_data "2023 Full Year" ⟨0⟩).1.head appNe).discountedAmount +
      ((App.generate_data "2023 Full Year" ⟨0⟩).1.head appNe).offeredAmount +
      ((App.generate_data "2023 Full Year" ⟨0⟩).1.head appNe).lossAmount +
      ((App.generate_data "2023 Full Year" ⟨0⟩).1.head appNe).returnedAmount) :=
  ⟨(claim_C5 "2023 Full Year" ⟨0⟩).1 _ (List.head_mem dpNe),
   (claim_C5 "2023 Full Year" ⟨0⟩).2 _ (List.head_mem appNe)⟩

/-- C6: for every record of every table produced by either `generate_data`
variant, Transaction Quantity is non-negative, and it equals Total Quantity
minus the five adjustment quantities whenever that difference is
non-negative. -/
theorem claim_C6 (option : String) (s : Rng) :
    (∀ rec ∈ (DataProcessing.generate_data option s).1,
      0 ≤ rec.transactionQuantity ∧
        (0 ≤ tqDiff rec → rec.transactionQuantity = tqDiff rec)) ∧
    (∀ rec ∈ (App.generate_data option s).1,
      0 ≤ rec.transactionQuantity ∧
        (0 ≤ tqDiff rec → rec.transactionQuantity = tqDiff rec)) :=
  ⟨fun rec h =>
    ⟨(DataProcessing.generate_data_strongInv option s rec h).1.2.2.2.2.2.1,
     (DataProcessing.generate_data_strongInv option s rec h).1.2.2.2.2.2.2⟩,
   fun rec h =>
    ⟨(App.generate_data_claims option s rec h).2.2.2.2.2.1,
     (App.generate_data_claims option s rec h).2.2.2.2.2.2⟩⟩

/-- C6 witness: at the first generated record of each variant's
"2023 Full Year" table the quantity is non-negative and (the difference being
non-negative there) equals the difference. -/
theorem claim_C6_witness :
    (0 ≤ ((DataProcessing.generate_data "2023 Full Year" ⟨0⟩).1.head dpNe).transactionQuantity ∧
      ((DataProcessing.generate_data "2023 Full Year" ⟨0⟩).1.head dpNe).transactionQuantity =
        tqDiff ((DataProcessing.generate_data "2023 Full Year" ⟨0⟩).1.head dpNe)) ∧
    (0 ≤ ((App.generate_data "2023 Full Year" ⟨0⟩).1.head appNe).transactionQuantity ∧
      ((App.generate_data "2023 Full Year" ⟨0⟩).1.head appNe).transactionQuantity =
        tqDiff ((App.generate_data "2023 Full Year" ⟨0⟩).1.head appNe)) :=
  ⟨⟨((claim_C6 "2023 Full Year" ⟨0⟩).1 _ (List.head_mem dpNe)).1,
    ((claim_C6 "2023 Full Year" ⟨0⟩).1 _ (List.head_mem dpNe)).2
      (by with_unfolding_all decide)⟩,
   ⟨((claim_C6 "2023 Full Year" ⟨0⟩).2 _ (List.head_mem appNe)).1,
    ((claim_C6 "2023 Full Year" ⟨0⟩).2 _ (List.head_mem appNe)).2
      (by with_unfolding_all decide)⟩⟩

/-- C1 counterexample: it is not the case that every record of every
generated table has all four adjustment amounts non-positive: in the
"2024 Full Year" table of the `data_processing.py` variant the first record
has a strictly positive Offered Amount. -/
theorem claim_C1_counterexample :
    ¬ (∀ (option : String) (s : Rng),
        (∀ rec ∈ (DataProcessing.generate_data option s).1,
          rec.discountedAmount ≤ 0 ∧ rec.offeredAmount ≤ 0 ∧ rec.lossAmount ≤ 0 ∧
            rec.returnedAmount ≤ 0) ∧
        (∀ rec ∈ (App.generate_data option s).1,
          rec.discountedAmount ≤ 0 ∧ rec.offeredAmount ≤ 0 ∧ rec.lossAmount ≤ 0 ∧
            rec.returnedAmount ≤ 0)) := by
  intro h
  have h2 := (h "2024 Full Year" ⟨0⟩).1
    ((DataProcessing.generate_data "2024 Full Year" ⟨0⟩).1.head dpNe24)
    (List.head_mem dpNe24)
  have h3 : ¬ ((DataProcessing.generate_data "2024 Full Year" ⟨0⟩).1.head
      dpNe24).offeredAmount ≤ 0 := by
    with_unfolding_all decide
  exact h3 h2.2.1

/-- C1 amended: for every record produced by either `generate_data` variant
the Discounted, Loss and Returned amounts are non-positive, while the Offered
Amount is non-negative (the source draws it without a minus sign). -/
theorem claim_C1_amended (option : String) (s : Rng) :
    (∀ rec ∈ (DataProcessing.generate_data option s).1,
      rec.discountedAmount ≤ 0 ∧ 0 ≤ rec.offeredAmount ∧ rec.lossAmount ≤ 0 ∧
        rec.returnedAmount ≤ 0) ∧
    (∀ rec ∈ (App.generate_data option s).1,
      rec.discountedAmount ≤ 0 ∧ 0 ≤ rec.offeredAmount ∧ rec.lossAmount ≤ 0 ∧
        rec.returnedAmount ≤ 0) :=
  ⟨fun rec h =>
    ⟨(DataProcessing.generate_data_strongInv option s rec h).1.2.1,
     (DataProcessing.generate_data_strongInv option s rec h).1.2.2.1,
     (DataProcessing.generate_data_strongInv option s rec h).1.2.2.2.1,
     (DataProcessing.generate_data_strongInv option s rec h).1.2.2.2.2.1⟩,
   fun rec h =>
    ⟨(App.generate_data_claims option s rec h).2.1,
     (App.generate_data_claims option s rec h).2.2.1,
     (App.generate_data_claims option s rec h).2.2.2.1,
     (App.generate_data_claims option s rec h).2.2.2.2.1⟩⟩

/-- C1 amended witness: the sign facts at the first generated record of each
variant's "2023 Full Year" table. -/
theorem claim_C1_amended_witness :
    (((DataProcessing.generate_data "2023 Full Year" ⟨0⟩).1.head dpNe).discountedAmount ≤ 0 ∧
      0 ≤ ((DataProcessing.generate_data "2023 Full Year" ⟨0⟩).1.head dpNe).offeredAmount ∧
      ((DataProcessing.generate_data "2023 Full Year" ⟨0⟩).1.head dpNe).lossAmount ≤ 0 ∧
      ((DataProcessing.generate_data "2023 Full Year" ⟨0⟩).1.head dpNe).returnedAmount ≤ 0) ∧
    (((App.generate_data "2023 Full Year" ⟨0⟩).1.head appNe).discountedAmount ≤ 0 ∧
      0 ≤ ((App.generate_data "2023 Full Year" ⟨0⟩).1.head appNe).offeredAmount ∧
      ((App.generate_data "2023 Full Year" ⟨0⟩).1.head appNe).lossAmount ≤ 0 ∧
      ((App.generate_data "2023 Full Year" ⟨0⟩).1.head appNe).returnedAmount ≤ 0) :=
  ⟨(claim_C1_amended "2023 Full Year" ⟨0⟩).1 _ (List.head_mem dpNe),
   (claim_C1_amended "2023 Full Year" ⟨0⟩).2 _ (List.head_mem appNe)⟩

/-- C3: in the scaling variant, for every record of the pre-scaling table
whose Transaction Amount is positive, recomputing the Profit Margin after
multiplying the monetary columns by the scaling factor gives back exactly the
margin the record already carried: the recomputation is redundant. -/
theorem claim_C3 (option : String) (rec : Record)
    (hm : rec ∈ (App.preScaled option).1) (hpos : 0 < rec.transactionAmount) :
    (App.recomputeMargin (App.scaleRecord
        (App.targetTotalSales option / App.currentTotal (App.preScaled option).1)
        rec)).profitMargin = rec.profitMargin := by
  have hinv := App.preScaled_strongInv option rec hm
  have hta : ∀ y ∈ (App.preScaled option).1, 0 ≤ y.transactionAmount :=
    fun y hy => (App.preScaled_strongInv option y hy).2.1
  have hcur : 0 < App.currentTotal (App.preScaled option).1 :=
    App.currentTotal_pos _ rec hm hpos hta
  have hf : App.targetTotalSales option / App.currentTotal (App.preScaled option).1 ≠ 0 :=
    ne_of_gt (div_pos (App.targetTotalSales_pos option) hcur)
  unfold App.recomputeMargin App.scaleRecord
  dsimp only
  rw [mul_div_mul_right _ _ hf]
  exact (hinv.2.2 hpos).symm

/-- C3 witness: the margin of the first pre-scaling record of the
"2023 Full Year" table is unchanged by the scaling step. -/
theorem claim_C3_witness :
    (App.recomputeMargin (App.scaleRecord
        (App.targetTotalSales "2023 Full Year" /
          App.currentTotal (App.preScaled "2023 Full Year").1)
        ((App.preScaled "2023 Full Year").1.head preNe))).profitMargin =
      ((App.preScaled "2023 Full Year").1.head preNe).profitMargin :=
  claim_C3 "2023 Full Year" _ (List.head_mem preNe) (by with_unfolding_all decide)

/-- C4: in the scaling variant, whenever the pre-scaling sum of the
Transaction Amount column is nonzero, the scaled table's Transaction Amount
column sums exactly to the period's target total sales. -/
theorem claim_C4 (option : String) (s : Rng)
    (h : App.currentTotal (App.preScaled option).1 ≠ 0) :
    App.currentTotal (App.generate_data option s).1 = App.targetTotalSales option := by
  unfold App.generate_data App.applyScaling
  dsimp only
  rw [App.currentTotal_map_scale, mul_comm, div_mul_cancel₀ _ h]

/-- C4 witness: the scaled "2023 Full Year" table sums exactly to the 2023
target, the pre-scaling total being provably positive at its first record. -/
theorem claim_C4_witness :
    App.currentTotal (App.generate_data "2023 Full Year" ⟨0⟩).1 =
      App.targetTotalSales "2023 Full Year" :=
  claim_C4 "2023 Full Year" ⟨0⟩
    (ne_of_gt (App.currentTotal_pos _ _ (List.head_mem preNe)
      (by with_unfolding_all decide)
      (fun y hy => (App.preScaled_strongInv "2023 Full Year" y hy).2.1)))

theorem dpGenerate_state_irrel (option : String) (s1 s2 : Rng) :
    DataProcessing.generate_data option s1 = DataProcessing.generate_data option s2 := rfl

theorem appGenerate_state_irrel (option : String) (s1 s2 : Rng) :
    App.generate_data option s1 = App.generate_data option s2 := rfl

/-- C7: for every period option, calling either `generate_data` variant twice
in sequence (each call reseeding the pseudo-random source with the period's
seed) returns identical tables. -/
theorem claim_C7 (option : String) (s : Rng) :
    (DataProcessing.generate_data option (DataProcessing.generate_data option s).2).1 =
        (DataProcessing.generate_data option s).1 ∧
    (App.generate_data option (App.generate_data option s).2).1 =
        (App.generate_data option s).1 :=
  ⟨congrArg Prod.fst (dpGenerate_state_irrel option _ s),
   congrArg Prod.fst (appGenerate_state_irrel option _ s)⟩

/-- C9: the metrics row computed from an empty table shows 0 for all five
KPIs; both guarded divisions fall back to 0 and no division by zero occurs. -/
theorem claim_C9 :
    App.create_metrics_row [] =
      { totalRevenue := 0, totalProfit := 0, totalOrders := 0, profitMargin := 0,
        avgOrder := 0 } := by
  with_unfolding_all decide

/-- C8: filtering by the single category `"BEER"` keeps exactly the rows whose
Category field is `"BEER"`, and when the filtered table's total transaction
amount is nonzero the Revenue Share recomputed on it for `"BEER"` is 100%. -/
theorem claim_C8 (df : List Record) :
    App.applyCategoryFilter ["BEER"] df =
        df.filter (fun rec => decide (rec.category = "BEER")) ∧
    (((App.applyCategoryFilter ["BEER"] df).map (fun rec => rec.transactionAmount)).sum ≠ 0 →
      App.revenueShare (App.applyCategoryFilter ["BEER"] df) "BEER" = 100) := by
  have hfilter : App.applyCategoryFilter ["BEER"] df =
      df.filter (fun rec => decide (rec.category = "BEER")) := by
    unfold App.applyCategoryFilter
    rw [if_pos (by decide)]
    apply List.filter_congr
    intro rec _
    simp [List.mem_singleton]
  refine ⟨hfilter, ?_⟩
  intro hsum
  unfold App.revenueShare App.categoryAmount
  have hall : (App.applyCategoryFilter ["BEER"] df).filter
      (fun rec => decide (rec.category = "BEER")) = App.applyCategoryFilter ["BEER"] df := by
    rw [List.filter_eq_self]
    intro rec hm
    rw [hfilter] at hm
    exact (List.mem_filter.mp hm).2
  rw [hall, div_self hsum]
  have hr : round1 (1 * 100) = 100 := by with_unfolding_all decide
  exact hr

/-- C8 witness: on a one-row BEER table the filter keeps the row and the BEER
revenue share is 100%. -/
theorem claim_C8_witness :
    App.applyCategoryFilter ["BEER"] [{ dfltRecord with category := "BEER", transactionAmount := 7 }] =
        [{ dfltRecord with category := "BEER", transactionAmount := 7 }].filter
          (fun rec => decide (rec.category = "BEER")) ∧
      App.revenueShare (App.applyCategoryFilter ["BEER"]
          [{ dfltRecord with category := "BEER", transactionAmount := 7 }]) "BEER" = 100 :=
  ⟨(claim_C8 [{ dfltRecord with category := "BEER", transactionAmount := 7 }]).1,
   (claim_C8 [{ dfltRecord with category := "BEER", transactionAmount := 7 }]).2
     (by with_unfolding_all decide)⟩

/-- C10: `filter_data` returns its input unchanged when the categories
argument is absent, empty, or contains `"All"`; otherwise it keeps exactly
the rows whose category is among the given ones. -/
theorem claim_C10 (df : List Record) (categories : Option (List String))
    (sd ed : Option String) :
    ((categories = none ∨ categories = some [] ∨
        (∃ cs, categories = some cs ∧ "All" ∈ cs)) →
      Utils.filter_data df categories sd ed = df) ∧
    (∀ cs, categories = some cs → cs ≠ [] → "All" ∉ cs →
      Utils.filter_data df categories sd ed =
        df.filter (fun rec => decide (rec.category ∈ cs))) := by
  constructor
  · rintro (rfl | rfl | ⟨cs, rfl, hall⟩)
    · rfl
    · simp [Utils.filter_data]
    · unfold Utils.filter_data
      dsimp only
      rw [if_neg]
      exact fun hcl => hcl.2 hall
  · rintro cs rfl hne hnall
    unfold Utils.filter_data
    dsimp only
    rw [if_pos (And.intro (List.length_pos.mpr hne) hnall)]

/-- C10 witness: on a concrete one-row table, filtering with `["All"]` is the
identity and filtering with `["BEER"]` applies the category restriction. -/
theorem claim_C10_witness :
    Utils.filter_data [dfltRecord] (some ["All"]) none none = [dfltRecord] ∧
      Utils.filter_data [dfltRecord] (some ["BEER"]) none none =
        [dfltRecord].filter (fun rec => decide (rec.category ∈ ["BEER"])) :=
  ⟨(claim_C10 [dfltRecord] (some ["All"]) none none).1
     (Or.inr (Or.inr ⟨["All"], rfl, by decide⟩)),
   (claim_C10 [dfltRecord] (some ["BEER"]) none none).2 ["BEER"] rfl
     (by decide) (by decide)⟩

/-- C2 counterexample: disjointness under `10 < row count` alone fails twice
over: on an 11-row table with pairwise distinct Transaction Amounts the
Top-10 and Bottom-10 sales selections of `create_product_performance` share
the middle rows, and on a 20-row table whose Transaction Amounts are all tied
they overlap as well, so the amendment needs both the 20-row bound and the
pairwise-distinct values of the metric being sorted. -/
theorem claim_C2_counterexample :
    (10 < cex11.length ∧
      ¬ List.Disjoint (App.create_product_performance "Most Sales" cex11)
        (App.create_product_performance "Least Sales" cex11)) ∧
    (10 < cexTied20.length ∧ 20 ≤ cexTied20.length ∧
      ¬ List.Disjoint (App.create_product_performance "Most Sales" cexTied20)
        (App.create_product_performance "Least Sales" cexTied20)) := by
  refine ⟨⟨by with_unfolding_all decide, ?_⟩,
    by with_unfolding_all decide, by with_unfolding_all decide, ?_⟩
  · intro h
    exact h (a := cexRow 5) (by with_unfolding_all decide) (by with_unfolding_all decide)
  · intro h
    exact h (a := tiedRow 0) (by with_unfolding_all decide) (by with_unfolding_all decide)

/-- C2 amended: for each of the four sort metrics independently, whenever the
table has at least 20 rows and its values for that one metric are pairwise
distinct, the Top-10 (descending head-10) and Bottom-10 (ascending head-10)
selections of `create_product_performance` for that metric are disjoint. -/
theorem claim_C2_amended (df : List Record) (hlen : 20 ≤ df.length) :
    ((df.Pairwise fun a b => a.transactionAmount ≠ b.transactionAmount) →
      List.Disjoint (App.create_product_performance "Most Sales" df)
        (App.create_product_performance "Least Sales" df)) ∧
      ((df.Pairwise fun a b => a.profit ≠ b.profit) →
        List.Disjoint (App.create_product_performance "Most Profit" df)
          (App.create_product_performance "Least Profit" df)) ∧
      ((df.Pairwise fun a b => a.profitMargin ≠ b.profitMargin) →
        List.Disjoint (App.create_product_performance "Highest Margin" df)
          (App.create_product_performance "Lowest Margin" df)) ∧
      ((df.Pairwise fun a b => a.transactionCount ≠ b.transactionCount) →
        List.Disjoint (App.create_product_performance "Most Orders" df)
          (App.create_product_performance "Least Orders" df)) := by
  have e1 : App.create_product_performance "Most Sales" df =
      (List.insertionSort (fun a b => b.transactionAmount ≤ a.transactionAmount) df).take 10 := by
    with_unfolding_all rfl
  have e2 : App.create_product_performance "Least Sales" df =
      (List.insertionSort (fun a b => a.transactionAmount ≤ b.transactionAmount) df).take 10 := by
    with_unfolding_all rfl
  have e3 : App.create_product_performance "Most Profit" df =
      (List.insertionSort (fun a b => b.profit ≤ a.profit) df).take 10 := by
    with_unfolding_all rfl
  have e4 : App.create_product_performance "Least Profit" df =
      (List.insertionSort (fun a b => a.profit ≤ b.profit) df).take 10 := by
    with_unfolding_all rfl
  have e5 : App.create_product_performance "Highest Margin" df =
      (List.insertionSort (fun a b => b.profitMargin ≤ a.profitMargin) df).take 10 := by
    with_unfolding_all rfl
  have e6 : App.create_product_performance "Lowest Margin" df =
      (List.insertionSort (fun a b => a.profitMargin ≤ b.profitMargin) df).take 10 := by
    with_unfolding_all rfl
  have e7 : App.create_product_performance "Most Orders" df =
      (List.insertionSort (fun a b => b.transactionCount ≤ a.transactionCount) df).take 10 := by
    with_unfolding_all rfl
  have e8 : App.create_product_performance "Least Orders" df =
      (List.insertionSort (fun a b => a.transactionCount ≤ b.transactionCount) df).take 10 := by
    with_unfolding_all rfl
  refine ⟨?_, ?_, ?_, ?_⟩
  · intro hta
    rw [e1, e2]
    exact fun a ha hb =>
      topBot_disjoint (fun rec => rec.transactionAmount) df hta hlen a ha hb
  · intro hpr
    rw [e3, e4]
    exact fun a ha hb => topBot_disjoint (fun rec => rec.profit) df hpr hlen a ha hb
  · intro hpm
    rw [e5, e6]
    exact fun a ha hb => topBot_disjoint (fun rec => rec.profitMargin) df hpm hlen a ha hb
  · intro htc
    rw [e7, e8]
    exact fun a ha hb =>
      topBot_disjoint (fun rec => rec.transactionCount) df htc hlen a ha hb

/-- C2 amended witness: on a concrete 20-row table, each of the four
per-metric distinctness hypotheses is discharged and the corresponding
Top-10/Bottom-10 selection pairs are disjoint. -/
theorem claim_C2_amended_witness :
    List.Disjoint (App.create_product_performance "Most Sales" cex20)
        (App.create_product_performance "Least Sales" cex20) ∧
      List.Disjoint (App.create_product_performance "Most Profit" cex20)
        (App.create_product_performance "Least Profit" cex20) ∧
      List.Disjoint (App.create_product_performance "Highest Margin" cex20)
        (App.create_product_performance "Lowest Margin" cex20) ∧
      List.Disjoint (App.create_product_performance "Most Orders" cex20)
        (App.create_product_performance "Least Orders" cex20) :=
  ⟨(claim_C2_amended cex20 (by with_unfolding_all decide)).1
     (by with_unfolding_all decide),
   (claim_C2_amended cex20 (by with_unfolding_all decide)).2.1
     (by with_unfolding_all decide),
   (claim_C2_amended cex20 (by with_unfolding_all decide)).2.2.1
     (by with_unfolding_all decide),
   (claim_C2_amended cex20 (by with_unfolding_all decide)).2.2.2
     (by with_unfolding_all decide)⟩
